import Mathlib

/-!
Shallow embedding of the Milvus datastore adapter
(src/repositories/datastore/milvus.go) and proofs about its specification.

Modelling conventions:
- Go errors are modelled as `String` values; `fmt.Errorf` wrapping with `%w`
  becomes string concatenation of the stage message with the underlying error.
- Go `[]float32` embedding vectors are opaque data here (no arithmetic is
  performed on them by the adapter), modelled as `List Int`.
- The backend client (milvus-sdk-go) and the text encoder are external
  collaborators; they are passed in as function-valued parameters, and each
  repository operation additionally returns the list of backend calls it
  issued, in order, so that claims about which requests are submitted can be
  stated and proved.
- A Go runtime panic (out-of-range index, nil pointer dereference) is a
  distinct outcome constructor, separate from a returned error.
-/

namespace Datastore

/-- Metric types of milvus-sdk-go `entity.MetricType` (the ones relevant here). -/
inductive MetricType where
  | l2
  | ip
  | cosine
deriving DecidableEq, Repr

/-- Field data types of milvus-sdk-go `entity.FieldType` (the ones used by the schema). -/
inductive FieldType where
  | varChar
  | floatVector
deriving DecidableEq, Repr

/-- Consistency levels of milvus-sdk-go `entity.ConsistencyLevel`. -/
inductive ConsistencyLevel where
  | strong
  | session
  | bounded
  | eventually
deriving DecidableEq, Repr

/-- milvus-sdk-go `entity.TypeParamMaxLength`. -/
def TypeParamMaxLength : String := "max_length"

/-- milvus-sdk-go `entity.TypeParamDim`. -/
def TypeParamDim : String := "dim"

/-- milvus-sdk-go `entity.DefaultShardNumber` (the SDK default shard count). -/
def DefaultShardNumber : Nat := 2

/-- One field of a collection schema, as in milvus-sdk-go `entity.Field`.
Go zero values: a field literal omitting `PrimaryKey`/`AutoID` gets `false`. -/
structure Field where
  name : String
  dataType : FieldType
  primaryKey : Bool := false
  autoID : Bool := false
  typeParams : List (String × String) := []
deriving DecidableEq, Repr

/-- A collection schema, as in milvus-sdk-go `entity.Schema`. -/
structure Schema where
  collectionName : String
  description : String
  autoID : Bool
  fields : List Field
deriving DecidableEq, Repr

/-- The domain document (core/domain.Document): four scalar string fields. -/
structure Document where
  id : String
  title : String
  content : String
  category : String
deriving DecidableEq, Repr

/-- Stand-in for Go `[]float32` embedding vectors; the adapter never computes
on the numbers, it only moves them around, so an opaque list suffices. -/
abbrev Embedding := List Int

/-- `defineSchema` of milvus.go: the five-field schema for a collection name. -/
def defineSchema (collectionName : String) : Schema :=
  { collectionName := collectionName
    description := ""
    autoID := false
    fields := [
      { name := "id"
        dataType := FieldType.varChar
        primaryKey := true
        autoID := false
        typeParams := [(TypeParamMaxLength, "255")] },
      { name := "title"
        dataType := FieldType.varChar
        primaryKey := false
        autoID := false
        typeParams := [(TypeParamMaxLength, "255")] },
      { name := "content"
        dataType := FieldType.varChar
        primaryKey := false
        autoID := false
        typeParams := [(TypeParamMaxLength, "3000")] },
      { name := "category"
        dataType := FieldType.varChar
        primaryKey := false
        autoID := false
        typeParams := [(TypeParamMaxLength, "100")] },
      { name := "embedding"
        dataType := FieldType.floatVector
        typeParams := [(TypeParamDim, "4096")] }
    ] }

/-- An IVF_FLAT index parameter set, as built by milvus-sdk-go
`entity.NewIndexIvfFlat(metricType, nlist)`. -/
structure IvfFlatIndex where
  metricType : MetricType
  nlist : Nat
deriving DecidableEq, Repr

/-- milvus-sdk-go `entity.NewIndexIvfFlat`: validates `nlist` against the
range [1, 65536] and otherwise returns the parameter set. -/
def NewIndexIvfFlat (metricType : MetricType) (nlist : Nat) : Except String IvfFlatIndex :=
  if 1 ≤ nlist ∧ nlist ≤ 65536 then
    Except.ok { metricType := metricType, nlist := nlist }
  else
    Except.error "nlist has to be in range [1, 65536]"

/-- A call issued to the backend client by the collection-management path.
`dropCollection` is included so that the absence of any rollback can be
stated about `CreateCollection` traces. -/
inductive BackendCall where
  | createCollection (schema : Schema) (shardNum : Nat)
  | createIndex (collectionName : String) (fieldName : String) (idx : IvfFlatIndex) (async : Bool)
  | dropCollection (collectionName : String)
deriving DecidableEq, Repr

/-- `buildIndex` of milvus.go: build the IVF_FLAT cosine index (nlist 1024)
on the `embedding` field. `createIndex` is the backend behaviour; the second
component of the result is the list of backend calls issued. -/
def buildIndex
    (createIndex : String → String → IvfFlatIndex → Bool → Except String Unit)
    (collectionName : String) : Except String Unit × List BackendCall :=
  match NewIndexIvfFlat MetricType.cosine 1024 with
  | Except.error e => (Except.error ("fail to create IVF flat index parameter: " ++ e), [])
  | Except.ok idx =>
    match createIndex collectionName "embedding" idx false with
    | Except.error e =>
        (Except.error ("fail to create index: " ++ e),
         [BackendCall.createIndex collectionName "embedding" idx false])
    | Except.ok _ =>
        (Except.ok (), [BackendCall.createIndex collectionName "embedding" idx false])

/-- `CreateCollection` of milvus.go: define the schema, submit it with the
default shard number, then build the index. `cc` and `ci` are the backend
behaviours of `Client.CreateCollection` and `Client.CreateIndex`. -/
def CreateCollection
    (cc : Schema → Nat → Except String Unit)
    (ci : String → String → IvfFlatIndex → Bool → Except String Unit)
    (collectionName : String) : Except String Unit × List BackendCall :=
  let schema := defineSchema collectionName
  match cc schema DefaultShardNumber with
  | Except.error e =>
      (Except.error ("failed to create collection: " ++ e),
       [BackendCall.createCollection schema DefaultShardNumber])
  | Except.ok _ =>
    match buildIndex ci collectionName with
    | (Except.error e, t) =>
        (Except.error ("failed to build index: " ++ e),
         BackendCall.createCollection schema DefaultShardNumber :: t)
    | (Except.ok _, t) =>
        (Except.ok (), BackendCall.createCollection schema DefaultShardNumber :: t)

/-- The single column-oriented upsert request milvus.go submits to
`Client.Upsert`: five named parallel columns plus the vector dimension. -/
structure UpsertRequest where
  collectionName : String
  partitionName : String
  idColumn : List String
  titleColumn : List String
  contentColumn : List String
  categoryColumn : List String
  embeddingDim : Nat
  embeddingColumn : List Embedding
deriving DecidableEq, Repr

/-- The encoding loop of `UpsertDocuments`: walk the batch in order, encode
each content, and accumulate the five parallel lists; the first encoding
failure aborts with the wrapped error. -/
def upsertLoop (encode : String → Except String Embedding) (docs : List Document)
    (idList titleList contentList categoryList : List String)
    (embeddingList : List Embedding) :
    Except String (List String × List String × List String × List String × List Embedding) :=
  match docs with
  | [] => Except.ok (idList, titleList, contentList, categoryList, embeddingList)
  | d :: rest =>
    match encode d.content with
    | Except.error e => Except.error ("fail to encode content: " ++ e)
    | Except.ok encodedContent =>
        upsertLoop encode rest
          (idList ++ [d.id]) (titleList ++ [d.title]) (contentList ++ [d.content])
          (categoryList ++ [d.category]) (embeddingList ++ [encodedContent])

/-- `UpsertDocuments` of milvus.go: encode every content, assemble the five
columns, and submit one upsert request. `up` is the backend behaviour of
`Client.Upsert`; the second component lists the upsert requests issued. -/
def UpsertDocuments (encode : String → Except String Embedding)
    (up : UpsertRequest → Except String Unit)
    (collectionName : String) (documents : List Document) :
    Except String Unit × List UpsertRequest :=
  match upsertLoop encode documents [] [] [] [] [] with
  | Except.error e => (Except.error e, [])
  | Except.ok (idList, titleList, contentList, categoryList, embeddingList) =>
    let req : UpsertRequest :=
      { collectionName := collectionName
        partitionName := ""
        idColumn := idList
        titleColumn := titleList
        contentColumn := contentList
        categoryColumn := categoryList
        embeddingDim := 4096
        embeddingColumn := embeddingList }
    match up req with
    | Except.error e => (Except.error ("fail to upsert data, err: " ++ e), [req])
    | Except.ok _ => (Except.ok (), [req])

/-- Search-time parameters of milvus-sdk-go `entity.IndexIvfFlatSearchParam`. -/
structure IvfFlatSearchParam where
  nprobe : Nat
deriving DecidableEq, Repr

/-- milvus-sdk-go `entity.NewIndexIvfFlatSearchParam(nprobe)`: Go returns the
pair (param, err); the param is nil exactly when nprobe is outside [1, 65536].
milvus.go discards the error component with a blank identifier. -/
def NewIndexIvfFlatSearchParam (nprobe : Nat) :
    Option IvfFlatSearchParam × Option String :=
  if 1 ≤ nprobe ∧ nprobe ≤ 65536 then (some { nprobe := nprobe }, none)
  else (none, some "nprobe not valid")

/-- Search options of milvus-sdk-go `client.SearchQueryOption`. -/
structure SearchQueryOption where
  limit : Nat
  offset : Nat
  consistencyLevel : ConsistencyLevel
  ignoreGrowing : Bool
deriving DecidableEq, Repr

/-- milvus-sdk-go builds the effective option from the positional topK
(initial Limit) and SDK defaults (bounded consistency, offset 0, growing
segments not ignored), then applies each caller-supplied option function. -/
def makeSearchQueryOption (topK : Nat)
    (opts : List (SearchQueryOption → SearchQueryOption)) : SearchQueryOption :=
  opts.foldl (fun o f => f o)
    { limit := topK
      offset := 0
      consistencyLevel := ConsistencyLevel.bounded
      ignoreGrowing := false }

/-- The option function milvus.go passes to `Client.Search`: limit 3,
offset 0, strong consistency, and IgnoreGrowing set to false. -/
def repoSearchOption : SearchQueryOption → SearchQueryOption := fun option =>
  { option with
      limit := 3
      offset := 0
      consistencyLevel := ConsistencyLevel.strong
      ignoreGrowing := false }

/-- The similarity-search request milvus.go submits to `Client.Search`,
with the effective option after the SDK merges topK and option functions. -/
structure SearchRequest where
  collectionName : String
  partitions : List String
  expr : String
  outputFields : List String
  vectors : List Embedding
  vectorField : String
  metricType : MetricType
  topK : Nat
  searchParam : Option IvfFlatSearchParam
  option : SearchQueryOption
deriving DecidableEq, Repr

/-- The request milvus.go builds for a collection name and encoded query. -/
def mkSearchRequest (collectionName : String) (encodedQuery : Embedding) : SearchRequest :=
  { collectionName := collectionName
    partitions := []
    expr := ""
    outputFields := ["title", "content", "category"]
    vectors := [encodedQuery]
    vectorField := "embedding"
    metricType := MetricType.cosine
    topK := 10
    searchParam := (NewIndexIvfFlatSearchParam 10).1
    option := makeSearchQueryOption 10 [repoSearchOption] }

/-- One result set of the backend search (`client.SearchResult`): named
columns of cells. A cell is `some s` when `GetAsString` decodes it to `s`
without error, and `none` when `GetAsString` reports a decoding error
(in which case Go returns the zero string alongside the error). -/
structure SearchResultSet where
  fields : List (String × List (Option String))
deriving DecidableEq, Repr

/-- `ResultSet.GetColumn(name)`: first column with the given name, nil
(modelled as `none`) when absent. -/
def getColumn (fields : List (String × List (Option String))) (name : String) :
    Option (List (Option String)) :=
  (fields.find? fun p => p.1 == name).map Prod.snd

/-- `Column.GetAsString(i)` with the error discarded, as milvus.go does:
an out-of-range index or a cell that fails to decode yields the zero
string `""`. -/
def getAsString (col : List (Option String)) (i : Nat) : String :=
  match col.get? i with
  | some (some s) => s
  | some none => ""
  | none => ""

/-- The decoding loop of `Search`: iterate `i` from 0 below the length of
the title column, reading all three columns at `i` with errors discarded.
Returns `none` for the nil-pointer panic that occurs when the loop body
dereferences an absent content or category column. -/
def decodeDocuments (tl : List (Option String))
    (contentList categoryList : Option (List (Option String))) :
    Option (List Document) :=
  if tl.length = 0 then some []
  else
    match contentList, categoryList with
    | some cl, some kl =>
        some ((List.range tl.length).map fun i =>
          { id := ""
            title := getAsString tl i
            content := getAsString cl i
            category := getAsString kl i })
    | _, _ => none

/-- A call issued to the backend client by the search path. -/
inductive SearchCall where
  | load (collectionName : String) (async : Bool)
  | search (req : SearchRequest)
  | release (collectionName : String)
deriving DecidableEq, Repr

/-- The outcome of `Search`: either a normal Go return of the pair
(documents, error) — where the document slice is nil (`none`) on every
error path — or a runtime panic. -/
inductive SearchOutcome where
  | ret (docs : Option (List Document)) (err : Option String)
  | panicked (msg : String)
deriving DecidableEq, Repr

/-- The backend behaviours consumed by the search path. -/
structure SearchBackend where
  loadCollection : String → Bool → Except String Unit
  searchCollection : SearchRequest → Except String (List SearchResultSet)
  releaseCollection : String → Except String Unit

/-- `Search` of milvus.go: encode the query, load the collection, submit the
similarity search, decode the first result set, and release the collection
only after a successful search. The second component lists the backend calls
issued, in order. -/
def Search (encode : String → Except String Embedding) (b : SearchBackend)
    (collectionName : String) (query : String) :
    SearchOutcome × List SearchCall :=
  match encode query with
  | Except.error e =>
      (SearchOutcome.ret none (some ("fail to encode query: " ++ e)), [])
  | Except.ok encodedQuery =>
    match b.loadCollection collectionName false with
    | Except.error e =>
        (SearchOutcome.ret none (some ("failed to load collection: " ++ e)),
         [SearchCall.load collectionName false])
    | Except.ok _ =>
      let req := mkSearchRequest collectionName encodedQuery
      match b.searchCollection req with
      | Except.error e =>
          (SearchOutcome.ret none (some ("fail to search collection: " ++ e)),
           [SearchCall.load collectionName false, SearchCall.search req])
      | Except.ok searchResult =>
        match searchResult with
        | [] =>
            (SearchOutcome.panicked "index out of range [0] with length 0",
             [SearchCall.load collectionName false, SearchCall.search req])
        | r0 :: _ =>
          match getColumn r0.fields "title" with
          | none =>
              (SearchOutcome.panicked "invalid memory address or nil pointer dereference",
               [SearchCall.load collectionName false, SearchCall.search req])
          | some tl =>
            match decodeDocuments tl (getColumn r0.fields "content")
                (getColumn r0.fields "category") with
            | none =>
                (SearchOutcome.panicked "invalid memory address or nil pointer dereference",
                 [SearchCall.load collectionName false, SearchCall.search req])
            | some documents =>
              match b.releaseCollection collectionName with
              | Except.error e =>
                  (SearchOutcome.ret none (some ("failed to release collection: " ++ e)),
                   [SearchCall.load collectionName false, SearchCall.search req,
                    SearchCall.release collectionName])
              | Except.ok _ =>
                  (SearchOutcome.ret (some documents) none,
                   [SearchCall.load collectionName false, SearchCall.search req,
                    SearchCall.release collectionName])

/-- The options of the search requests occurring in a trace, in order. -/
def searchOptsOf (trace : List SearchCall) : List SearchQueryOption :=
  trace.filterMap fun c =>
    match c with
    | SearchCall.search req => some req.option
    | _ => none

/-- The output-field lists of the search requests occurring in a trace. -/
def searchOutputFieldsOf (trace : List SearchCall) : List (List String) :=
  trace.filterMap fun c =>
    match c with
    | SearchCall.search req => some req.outputFields
    | _ => none

/-! Helper lemmas shared by the claim proofs. -/

/-- The static IVF_FLAT index parameter set milvus.go builds always validates. -/
theorem newIndexIvfFlat_cosine_1024 :
    NewIndexIvfFlat MetricType.cosine 1024 =
      Except.ok { metricType := MetricType.cosine, nlist := 1024 } := rfl

/-- The encoding loop fails with the wrapped error of the first document whose
content fails to encode, provided every earlier document encodes. -/
theorem upsertLoop_first_error (encode : String → Except String Embedding)
    (d : Document) (e : String) (post : List Document)
    (hd : encode d.content = Except.error e) :
    ∀ (pre : List Document), (∀ d' ∈ pre, ∃ v, encode d'.content = Except.ok v) →
    ∀ il tl cl kl el, upsertLoop encode (pre ++ d :: post) il tl cl kl el =
      Except.error ("fail to encode content: " ++ e) := by
  intro pre
  induction pre with
  | nil =>
    intro _ il tl cl kl el
    simp [upsertLoop, hd]
  | cons p rest ih =>
    intro hpre il tl cl kl el
    obtain ⟨v, hv⟩ := hpre p (List.mem_cons_self p rest)
    rw [List.cons_append]
    simp only [upsertLoop, hv]
    exact ih (fun d' h => hpre d' (List.mem_cons_of_mem p h)) _ _ _ _ _

/-- When every document encodes, the loop extends the accumulators with the
five per-field projections of the batch, in batch order. -/
theorem upsertLoop_all_ok (encode : String → Except String Embedding)
    (f : Document → Embedding) :
    ∀ (docs : List Document), (∀ d ∈ docs, encode d.content = Except.ok (f d)) →
    ∀ il tl cl kl el, upsertLoop encode docs il tl cl kl el =
      Except.ok (il ++ docs.map Document.id, tl ++ docs.map Document.title,
                 cl ++ docs.map Document.content, kl ++ docs.map Document.category,
                 el ++ docs.map f) := by
  intro docs
  induction docs with
  | nil =>
    intro _ il tl cl kl el
    simp [upsertLoop]
  | cons p rest ih =>
    intro henc il tl cl kl el
    have hv := henc p (List.mem_cons_self p rest)
    simp only [upsertLoop, hv]
    rw [ih (fun d h => henc d (List.mem_cons_of_mem p h))]
    simp

/-- Claim C6: for every collection name, `defineSchema` is a pure function of
that name producing exactly five fields — id (varchar, max length 255, sole
primary key, auto-generation disabled), title (varchar, 255), content
(varchar, 3000), category (varchar, 100), embedding (float vector, dim 4096)
— with no other field marked as primary key, and with the field list not
depending on the name at all. -/
theorem C6_defineSchema_contract (name : String) :
    (defineSchema name).collectionName = name ∧
    (defineSchema name).fields.length = 5 ∧
    (defineSchema name).fields.map Field.name =
      ["id", "title", "content", "category", "embedding"] ∧
    (defineSchema name).fields.get? 0 =
      some { name := "id", dataType := FieldType.varChar, primaryKey := true,
             autoID := false, typeParams := [(TypeParamMaxLength, "255")] } ∧
    (defineSchema name).fields.get? 1 =
      some { name := "title", dataType := FieldType.varChar, primaryKey := false,
             autoID := false, typeParams := [(TypeParamMaxLength, "255")] } ∧
    (defineSchema name).fields.get? 2 =
      some { name := "content", dataType := FieldType.varChar, primaryKey := false,
             autoID := false, typeParams := [(TypeParamMaxLength, "3000")] } ∧
    (defineSchema name).fields.get? 3 =
      some { name := "category", dataType := FieldType.varChar, primaryKey := false,
             autoID := false, typeParams := [(TypeParamMaxLength, "100")] } ∧
    (defineSchema name).fields.get? 4 =
      some { name := "embedding", dataType := FieldType.floatVector, primaryKey := false,
             autoID := false, typeParams := [(TypeParamDim, "4096")] } ∧
    ((defineSchema name).fields.filter fun f => f.primaryKey).map Field.name = ["id"] ∧
    (∀ name₂ : String, (defineSchema name).fields = (defineSchema name₂).fields) :=
  ⟨rfl, rfl, rfl, rfl, rfl, rfl, rfl, rfl, rfl, fun _ => rfl⟩

/-- Claim C5: `CreateCollection` submits the schema with the default shard
count as its first backend call; if schema submission fails the wrapped error
is returned and no index call is issued; if schema submission succeeds and
index construction fails the wrapped error is returned; and no rollback
(drop of the collection) is ever issued on any path. -/
theorem C5_createCollection_contract
    (cc : Schema → Nat → Except String Unit)
    (ci : String → String → IvfFlatIndex → Bool → Except String Unit)
    (name : String) :
    (CreateCollection cc ci name).2.head? =
      some (BackendCall.createCollection (defineSchema name) DefaultShardNumber) ∧
    (∀ e, cc (defineSchema name) DefaultShardNumber = Except.error e →
      CreateCollection cc ci name =
        (Except.error ("failed to create collection: " ++ e),
         [BackendCall.createCollection (defineSchema name) DefaultShardNumber])) ∧
    (∀ e, cc (defineSchema name) DefaultShardNumber = Except.ok () →
      ci name "embedding" { metricType := MetricType.cosine, nlist := 1024 } false =
        Except.error e →
      (CreateCollection cc ci name).1 =
        Except.error ("failed to build index: " ++ ("fail to create index: " ++ e))) ∧
    (∀ n, BackendCall.dropCollection n ∉ (CreateCollection cc ci name).2) := by
  refine ⟨?_, ?_, ?_, ?_⟩
  · cases h : cc (defineSchema name) DefaultShardNumber with
    | error e => simp [CreateCollection, h]
    | ok u =>
      cases u
      cases hci : ci name "embedding" { metricType := MetricType.cosine, nlist := 1024 } false with
      | error e => simp [CreateCollection, buildIndex, newIndexIvfFlat_cosine_1024, h, hci]
      | ok u2 => cases u2; simp [CreateCollection, buildIndex, newIndexIvfFlat_cosine_1024, h, hci]
  · intro e he
    simp [CreateCollection, he]
  · intro e hok hci
    simp [CreateCollection, buildIndex, newIndexIvfFlat_cosine_1024, hok, hci]
  · intro n
    cases h : cc (defineSchema name) DefaultShardNumber with
    | error e => simp [CreateCollection, h]
    | ok u =>
      cases u
      cases hci : ci name "embedding" { metricType := MetricType.cosine, nlist := 1024 } false with
      | error e => simp [CreateCollection, buildIndex, newIndexIvfFlat_cosine_1024, h, hci]
      | ok u2 => cases u2; simp [CreateCollection, buildIndex, newIndexIvfFlat_cosine_1024, h, hci]

/-- Witness for claim C5: a backend whose schema submission fails with
"boom" yields the wrapped creation error and a trace with only the schema
submission call. -/
theorem C5_createCollection_contract_witness :
    CreateCollection (fun _ _ => Except.error "boom") (fun _ _ _ _ => Except.ok ()) "c" =
      (Except.error ("failed to create collection: " ++ "boom"),
       [BackendCall.createCollection (defineSchema "c") DefaultShardNumber]) :=
  (C5_createCollection_contract (fun _ _ => Except.error "boom")
    (fun _ _ _ _ => Except.ok ()) "c").2.1 "boom" rfl

/-- Claim C3: if any document content fails to encode, `UpsertDocuments`
returns the wrapped encoding error of the first failing document and issues
no upsert request to the backend at all. -/
theorem C3_upsert_encode_failure_aborts
    (encode : String → Except String Embedding) (up : UpsertRequest → Except String Unit)
    (cn : String) (pre post : List Document) (d : Document) (e : String)
    (hpre : ∀ d' ∈ pre, ∃ v, encode d'.content = Except.ok v)
    (hd : encode d.content = Except.error e) :
    UpsertDocuments encode up cn (pre ++ d :: post) =
      (Except.error ("fail to encode content: " ++ e), []) := by
  unfold UpsertDocuments
  rw [upsertLoop_first_error encode d e post hd pre hpre]

/-- Witness for claim C3: a two-document batch whose second content fails to
encode aborts with the wrapped error and an empty request trace. -/
theorem C3_upsert_encode_failure_aborts_witness :
    UpsertDocuments
      (fun s => if s == "bad" then Except.error "boom" else Except.ok [0])
      (fun _ => Except.ok ()) "c"
      [⟨"1", "t1", "good", "k1"⟩, ⟨"2", "t2", "bad", "k2"⟩] =
      (Except.error ("fail to encode content: " ++ "boom"), []) :=
  C3_upsert_encode_failure_aborts
    (fun s => if s == "bad" then Except.error "boom" else Except.ok [0])
    (fun _ => Except.ok ()) "c"
    [⟨"1", "t1", "good", "k1"⟩] [] ⟨"2", "t2", "bad", "k2"⟩ "boom"
    (by
      intro d' hd'
      rw [List.mem_singleton] at hd'
      subst hd'
      exact ⟨[0], rfl⟩)
    rfl

/-- Claim C4: when every content encodes, `UpsertDocuments` issues exactly
one upsert request, whose five columns are the per-field projections of the
batch in batch order (element i of every column comes from document i). -/
theorem C4_upsert_single_batched_request
    (encode : String → Except String Embedding) (up : UpsertRequest → Except String Unit)
    (cn : String) (documents : List Document) (f : Document → Embedding)
    (henc : ∀ d ∈ documents, encode d.content = Except.ok (f d)) :
    (UpsertDocuments encode up cn documents).2 =
      [{ collectionName := cn
         partitionName := ""
         idColumn := documents.map Document.id
         titleColumn := documents.map Document.title
         contentColumn := documents.map Document.content
         categoryColumn := documents.map Document.category
         embeddingDim := 4096
         embeddingColumn := documents.map f }] := by
  unfold UpsertDocuments
  rw [upsertLoop_all_ok encode f documents henc [] [] [] [] []]
  simp only [List.nil_append]
  cases up { collectionName := cn, partitionName := "",
             idColumn := documents.map Document.id,
             titleColumn := documents.map Document.title,
             contentColumn := documents.map Document.content,
             categoryColumn := documents.map Document.category,
             embeddingDim := 4096, embeddingColumn := documents.map f } <;> rfl

/-- Witness for claim C4: a concrete two-document batch with a total encoder
produces the single batched request with the five projected columns. -/
theorem C4_upsert_single_batched_request_witness :
    (UpsertDocuments (fun s => Except.ok [(s.length : Int)]) (fun _ => Except.ok ()) "c"
      [⟨"1", "t1", "c1", "k1"⟩, ⟨"2", "t2", "c2", "k2"⟩]).2 =
      [{ collectionName := "c"
         partitionName := ""
         idColumn := ["1", "2"]
         titleColumn := ["t1", "t2"]
         contentColumn := ["c1", "c2"]
         categoryColumn := ["k1", "k2"]
         embeddingDim := 4096
         embeddingColumn := [[2], [2]] }] :=
  C4_upsert_single_batched_request (fun s => Except.ok [(s.length : Int)])
    (fun _ => Except.ok ()) "c"
    [⟨"1", "t1", "c1", "k1"⟩, ⟨"2", "t2", "c2", "k2"⟩]
    (fun d => [(d.content.length : Int)])
    (by intro d _; rfl)

/-- When both the content and category columns are present, the decoding
loop yields one document per title-column index, with errors discarded. -/
theorem decodeDocuments_some (tl cl kl : List (Option String)) :
    decodeDocuments tl (some cl) (some kl) =
      some ((List.range tl.length).map fun i =>
        { id := ""
          title := getAsString tl i
          content := getAsString cl i
          category := getAsString kl i }) := by
  by_cases h : tl.length = 0
  · simp [decodeDocuments, h]
  · simp [decodeDocuments, h]

/-- Claim C1 (amended): every similarity-search request `Search` submits is
configured with limit 3, offset 0, strong consistency, and the
ignore-growing flag left false, so documents in growing segments remain in
the candidate set (they are not excluded). -/
theorem C1_search_request_options
    (encode : String → Except String Embedding) (b : SearchBackend)
    (cn q : String) (v : Embedding)
    (henc : encode q = Except.ok v)
    (hload : b.loadCollection cn false = Except.ok ()) :
    SearchCall.search (mkSearchRequest cn v) ∈ (Search encode b cn q).2 ∧
    (mkSearchRequest cn v).option.limit = 3 ∧
    (mkSearchRequest cn v).option.offset = 0 ∧
    (mkSearchRequest cn v).option.consistencyLevel = ConsistencyLevel.strong ∧
    (mkSearchRequest cn v).option.ignoreGrowing = false := by
  refine ⟨?_, rfl, rfl, rfl, rfl⟩
  cases hs : b.searchCollection (mkSearchRequest cn v) with
  | error e => simp [Search, henc, hload, hs]
  | ok rs =>
    cases rs with
    | nil => simp [Search, henc, hload, hs]
    | cons r0 rest =>
      cases ht : getColumn r0.fields "title" with
      | none => simp [Search, henc, hload, hs, ht]
      | some tl =>
        cases hdec : decodeDocuments tl (getColumn r0.fields "content")
            (getColumn r0.fields "category") with
        | none => simp [Search, henc, hload, hs, ht, hdec]
        | some documents =>
          cases hr : b.releaseCollection cn with
          | error e => simp [Search, henc, hload, hs, ht, hdec, hr]
          | ok u => cases u; simp [Search, henc, hload, hs, ht, hdec, hr]

/-- Witness for claim C1 (amended theorem): a concrete run in which the
search request is submitted, with the stated option values. -/
theorem C1_search_request_options_witness :
    SearchCall.search (mkSearchRequest "c" [0]) ∈
      (Search (fun _ => Except.ok [0])
        { loadCollection := fun _ _ => Except.ok ()
          searchCollection := fun _ => Except.error "down"
          releaseCollection := fun _ => Except.ok () } "c" "q").2 ∧
    (mkSearchRequest "c" [0]).option.limit = 3 ∧
    (mkSearchRequest "c" [0]).option.offset = 0 ∧
    (mkSearchRequest "c" [0]).option.consistencyLevel = ConsistencyLevel.strong ∧
    (mkSearchRequest "c" [0]).option.ignoreGrowing = false :=
  C1_search_request_options (fun _ => Except.ok [0])
    { loadCollection := fun _ _ => Except.ok ()
      searchCollection := fun _ => Except.error "down"
      releaseCollection := fun _ => Except.ok () } "c" "q" [0] rfl rfl

/-- Counterexample to claim C1 as stated: in a concrete run, exactly one
similarity-search request is submitted and its ignore-growing flag is false,
not true — growing segments are not excluded from the candidate set, contrary
to the claim. -/
theorem C1_growing_segments_not_excluded_counterexample :
    (searchOptsOf (Search (fun _ => Except.ok [0])
      { loadCollection := fun _ _ => Except.ok ()
        searchCollection := fun _ => Except.error "down"
        releaseCollection := fun _ => Except.ok () } "c" "q").2).map
          SearchQueryOption.ignoreGrowing = [false] := rfl

/-- Claim C2: the release call is issued only on the path where the backend
search succeeded; whenever a release call appears in the trace, the trace
also holds a search request that the backend answered successfully. -/
theorem C2_release_only_after_successful_search
    (encode : String → Except String Embedding) (b : SearchBackend)
    (cn q n : String)
    (hrel : SearchCall.release n ∈ (Search encode b cn q).2) :
    ∃ req rs, SearchCall.search req ∈ (Search encode b cn q).2 ∧
      b.searchCollection req = Except.ok rs := by
  cases he : encode q with
  | error e => simp [Search, he] at hrel
  | ok v =>
    cases hl : b.loadCollection cn false with
    | error e => simp [Search, he, hl] at hrel
    | ok u =>
      cases u
      cases hs : b.searchCollection (mkSearchRequest cn v) with
      | error e => simp [Search, he, hl, hs] at hrel
      | ok rs =>
        refine ⟨mkSearchRequest cn v, rs, ?_, hs⟩
        cases rs with
        | nil => simp [Search, he, hl, hs] at hrel
        | cons r0 rest =>
          cases ht : getColumn r0.fields "title" with
          | none => simp [Search, he, hl, hs, ht]
          | some tl =>
            cases hdec : decodeDocuments tl (getColumn r0.fields "content")
                (getColumn r0.fields "category") with
            | none => simp [Search, he, hl, hs, ht, hdec]
            | some documents =>
              cases hr : b.releaseCollection cn with
              | error e => simp [Search, he, hl, hs, ht, hdec, hr]
              | ok u2 => cases u2; simp [Search, he, hl, hs, ht, hdec, hr]

/-- Witness for claim C2: a concrete run whose trace holds a release call,
from which the successfully answered search request is produced. -/
theorem C2_release_only_after_successful_search_witness :
    ∃ req rs,
      SearchCall.search req ∈
        (Search (fun _ => Except.ok [0])
          { loadCollection := fun _ _ => Except.ok ()
            searchCollection := fun _ =>
              Except.ok [{ fields := [("title", [some "t"]), ("content", [some "c"]),
                                      ("category", [some "k"])] }]
            releaseCollection := fun _ => Except.ok () } "c" "q").2 ∧
      (fun _ => Except.ok [{ fields := [("title", [some "t"]), ("content", [some "c"]),
                                        ("category", [some "k"])] }] :
        SearchRequest → Except String (List SearchResultSet)) req = Except.ok rs :=
  C2_release_only_after_successful_search (fun _ => Except.ok [0])
    { loadCollection := fun _ _ => Except.ok ()
      searchCollection := fun _ =>
        Except.ok [{ fields := [("title", [some "t"]), ("content", [some "c"]),
                                ("category", [some "k"])] }]
      releaseCollection := fun _ => Except.ok () } "c" "q" "c"
    (by decide)

/-- Claim C7: when the backend search succeeds (and decoding completes) but
the release fails, `Search` returns the wrapped release error with a nil
document slice — the already-computed results are discarded, never returned
alongside the error. -/
theorem C7_release_failure_discards_results
    (encode : String → Except String Embedding) (b : SearchBackend)
    (cn q : String) (v : Embedding) (rs : SearchResultSet)
    (tl : List (Option String)) (docs : List Document) (e : String)
    (henc : encode q = Except.ok v)
    (hload : b.loadCollection cn false = Except.ok ())
    (hsearch : ∀ r, b.searchCollection r = Except.ok [rs])
    (htitle : getColumn rs.fields "title" = some tl)
    (hdec : decodeDocuments tl (getColumn rs.fields "content")
              (getColumn rs.fields "category") = some docs)
    (hrel : ∀ m, b.releaseCollection m = Except.error e) :
    (Search encode b cn q).1 =
      SearchOutcome.ret none (some ("failed to release collection: " ++ e)) := by
  simp [Search, henc, hload, hsearch, htitle, hdec, hrel]

/-- Witness for claim C7: a concrete run with a one-row result set and a
failing release returns the wrapped release error and no documents. -/
theorem C7_release_failure_discards_results_witness :
    (Search (fun _ => Except.ok [0])
      { loadCollection := fun _ _ => Except.ok ()
        searchCollection := fun _ =>
          Except.ok [{ fields := [("title", [some "t"]), ("content", [some "c"]),
                                  ("category", [some "k"])] }]
        releaseCollection := fun _ => Except.error "relboom" } "c" "q").1 =
      SearchOutcome.ret none (some ("failed to release collection: " ++ "relboom")) :=
  C7_release_failure_discards_results (fun _ => Except.ok [0])
    { loadCollection := fun _ _ => Except.ok ()
      searchCollection := fun _ =>
        Except.ok [{ fields := [("title", [some "t"]), ("content", [some "c"]),
                                ("category", [some "k"])] }]
      releaseCollection := fun _ => Except.error "relboom" } "c" "q" [0]
    { fields := [("title", [some "t"]), ("content", [some "c"]), ("category", [some "k"])] }
    [some "t"] [{ id := "", title := "t", content := "c", category := "k" }] "relboom"
    rfl rfl (fun _ => rfl) rfl (by decide) (fun _ => rfl)

/-- Claim C8: on a successful invocation, `Search` returns one document per
title-column row, every returned document has an empty id, the other three
fields come from the backend result columns, and the sole search request
asks only for the title, content and category output fields (id is never
requested). -/
theorem C8_results_have_empty_id
    (encode : String → Except String Embedding) (b : SearchBackend)
    (cn q : String) (v : Embedding) (rs : SearchResultSet)
    (tl cl kl : List (Option String))
    (henc : encode q = Except.ok v)
    (hload : b.loadCollection cn false = Except.ok ())
    (hsearch : ∀ r, b.searchCollection r = Except.ok [rs])
    (htitle : getColumn rs.fields "title" = some tl)
    (hcontent : getColumn rs.fields "content" = some cl)
    (hcat : getColumn rs.fields "category" = some kl)
    (hrel : ∀ m, b.releaseCollection m = Except.ok ()) :
    (Search encode b cn q).1 =
      SearchOutcome.ret (some ((List.range tl.length).map fun i =>
        { id := ""
          title := getAsString tl i
          content := getAsString cl i
          category := getAsString kl i })) none ∧
    (∀ docs, (Search encode b cn q).1 = SearchOutcome.ret (some docs) none →
      ∀ d ∈ docs, d.id = "") ∧
    searchOutputFieldsOf (Search encode b cn q).2 = [["title", "content", "category"]] := by
  have hmain : (Search encode b cn q).1 =
      SearchOutcome.ret (some ((List.range tl.length).map fun i =>
        { id := ""
          title := getAsString tl i
          content := getAsString cl i
          category := getAsString kl i })) none := by
    simp [Search, henc, hload, hsearch, htitle, hcontent, hcat, decodeDocuments_some, hrel]
  refine ⟨hmain, ?_, ?_⟩
  · intro docs hdocs d hd
    rw [hmain] at hdocs
    cases hdocs
    simp only [List.mem_map] at hd
    obtain ⟨i, _, hi⟩ := hd
    rw [← hi]
  · simp [Search, searchOutputFieldsOf, henc, hload, hsearch, htitle, hcontent, hcat,
      decodeDocuments_some, hrel, mkSearchRequest]

/-- Witness for claim C8: a concrete successful run returns documents with
empty ids, fields from the result columns, and the single request asks only
for title, content and category. -/
theorem C8_results_have_empty_id_witness :
    (Search (fun _ => Except.ok [0])
      { loadCollection := fun _ _ => Except.ok ()
        searchCollection := fun _ =>
          Except.ok [{ fields := [("title", [some "t"]), ("content", [some "c"]),
                                  ("category", [some "k"])] }]
        releaseCollection := fun _ => Except.ok () } "c" "q").1 =
      SearchOutcome.ret (some ((List.range ([some "t"] : List (Option String)).length).map fun i =>
        { id := ""
          title := getAsString [some "t"] i
          content := getAsString [some "c"] i
          category := getAsString [some "k"] i })) none ∧
    (∀ docs,
      (Search (fun _ => Except.ok [0])
        { loadCollection := fun _ _ => Except.ok ()
          searchCollection := fun _ =>
            Except.ok [{ fields := [("title", [some "t"]), ("content", [some "c"]),
                                    ("category", [some "k"])] }]
          releaseCollection := fun _ => Except.ok () } "c" "q").1 =
        SearchOutcome.ret (some docs) none → ∀ d ∈ docs, d.id = "") ∧
    searchOutputFieldsOf (Search (fun _ => Except.ok [0])
      { loadCollection := fun _ _ => Except.ok ()
        searchCollection := fun _ =>
          Except.ok [{ fields := [("title", [some "t"]), ("content", [some "c"]),
                                  ("category", [some "k"])] }]
        releaseCollection := fun _ => Except.ok () } "c" "q").2 =
      [["title", "content", "category"]] :=
  C8_results_have_empty_id (fun _ => Except.ok [0])
    { loadCollection := fun _ _ => Except.ok ()
      searchCollection := fun _ =>
        Except.ok [{ fields := [("title", [some "t"]), ("content", [some "c"]),
                                ("category", [some "k"])] }]
      releaseCollection := fun _ => Except.ok () } "c" "q" [0]
    { fields := [("title", [some "t"]), ("content", [some "c"]), ("category", [some "k"])] }
    [some "t"] [some "c"] [some "k"]
    rfl rfl (fun _ => rfl) (by decide) (by decide) (by decide) (fun _ => rfl)

/-- Claim C9: when the backend search call succeeds with an empty list of
result sets, `Search` panics on the out-of-bounds access to the first result
set instead of returning an error. -/
theorem C9_empty_result_list_panics
    (encode : String → Except String Embedding) (b : SearchBackend)
    (cn q : String) (v : Embedding)
    (henc : encode q = Except.ok v)
    (hload : b.loadCollection cn false = Except.ok ())
    (hsearch : ∀ r, b.searchCollection r = Except.ok []) :
    (Search encode b cn q).1 =
      SearchOutcome.panicked "index out of range [0] with length 0" := by
  simp [Search, henc, hload, hsearch]

/-- Witness for claim C9: a concrete run whose backend answers the search
with zero result sets panics. -/
theorem C9_empty_result_list_panics_witness :
    (Search (fun _ => Except.ok [0])
      { loadCollection := fun _ _ => Except.ok ()
        searchCollection := fun _ => Except.ok []
        releaseCollection := fun _ => Except.ok () } "c" "q").1 =
      SearchOutcome.panicked "index out of range [0] with length 0" :=
  C9_empty_result_list_panics (fun _ => Except.ok [0])
    { loadCollection := fun _ _ => Except.ok ()
      searchCollection := fun _ => Except.ok []
      releaseCollection := fun _ => Except.ok () } "c" "q" [0] rfl rfl (fun _ => rfl)

/-- Claim C10: on a successful invocation, a result value that fails to
decode as a string yields an empty-string field in the corresponding
returned document, and never causes `Search` to return an error: the run
still completes with no error, and the document at that position carries ""
for the failing column. -/
theorem C10_decode_errors_discarded
    (encode : String → Except String Embedding) (b : SearchBackend)
    (cn q : String) (v : Embedding) (rs : SearchResultSet)
    (tl cl kl : List (Option String)) (i : Nat)
    (henc : encode q = Except.ok v)
    (hload : b.loadCollection cn false = Except.ok ())
    (hsearch : ∀ r, b.searchCollection r = Except.ok [rs])
    (htitle : getColumn rs.fields "title" = some tl)
    (hcontent : getColumn rs.fields "content" = some cl)
    (hcat : getColumn rs.fields "category" = some kl)
    (hrel : ∀ m, b.releaseCollection m = Except.ok ())
    (hi : i < tl.length)
    (hcell : cl.get? i = some none) :
    (Search encode b cn q).1 =
      SearchOutcome.ret (some ((List.range tl.length).map fun j =>
        { id := ""
          title := getAsString tl j
          content := getAsString cl j
          category := getAsString kl j })) none ∧
    ((List.range tl.length).map fun j =>
      ({ id := ""
         title := getAsString tl j
         content := getAsString cl j
         category := getAsString kl j } : Document)).get? i =
      some { id := ""
             title := getAsString tl i
             content := ""
             category := getAsString kl i } := by
  constructor
  · simp [Search, henc, hload, hsearch, htitle, hcontent, hcat, decodeDocuments_some, hrel]
  · have hr : (List.range tl.length).get? i = some i := by
      rw [List.get?_eq_getElem?]
      simp [hi]
    rw [List.get?_map, hr]
    have hcell2 : cl[i]? = some none := by
      rw [← List.get?_eq_getElem?]
      exact hcell
    simp [getAsString, hcell2]

/-- Witness for claim C10: a concrete run whose content column fails to
decode at position 0 completes without error and returns a document with an
empty content field. -/
theorem C10_decode_errors_discarded_witness :
    (Search (fun _ => Except.ok [0])
      { loadCollection := fun _ _ => Except.ok ()
        searchCollection := fun _ =>
          Except.ok [{ fields := [("title", [some "t"]), ("content", [(none : Option String)]),
                                  ("category", [some "k"])] }]
        releaseCollection := fun _ => Except.ok () } "c" "q").1 =
      SearchOutcome.ret (some ((List.range ([some "t"] : List (Option String)).length).map fun j =>
        { id := ""
          title := getAsString [some "t"] j
          content := getAsString [(none : Option String)] j
          category := getAsString [some "k"] j })) none ∧
    ((List.range ([some "t"] : List (Option String)).length).map fun j =>
      ({ id := ""
         title := getAsString [some "t"] j
         content := getAsString [(none : Option String)] j
         category := getAsString [some "k"] j } : Document)).get? 0 =
      some { id := ""
             title := getAsString [some "t"] 0
             content := ""
             category := getAsString [some "k"] 0 } :=
  C10_decode_errors_discarded (fun _ => Except.ok [0])
    { loadCollection := fun _ _ => Except.ok ()
      searchCollection := fun _ =>
        Except.ok [{ fields := [("title", [some "t"]), ("content", [(none : Option String)]),
                                ("category", [some "k"])] }]
      releaseCollection := fun _ => Except.ok () } "c" "q" [0]
    { fields := [("title", [some "t"]), ("content", [(none : Option String)]),
                 ("category", [some "k"])] }
    [some "t"] [(none : Option String)] [some "k"] 0
    rfl rfl (fun _ => rfl) (by decide) (by decide) (by decide) (fun _ => rfl)
    (by decide) rfl

end Datastore
